import Mathlib

/-!
# Verification of the zPixProxyScore proxy-checking pipeline

A shallow embedding of the core of the repository: the per-proxy probe
`check_proxy` and the batch driver `check_proxies_with_threading` from
`proxy_checker.py`, and the filtering and templated-export logic of
`export.py` (`refresh` and the text branch of `do_export`).

Python strings are modelled as lists of characters (`PyStr`); the Python
string operations the code uses (`split`, `split(sep, 1)`, `splitlines`,
`strip`, `replace`, `int(...)`) are defined below with Python's semantics
for the forms that occur in this code base (`splitlines` is modelled on
the `"\n"` separator, which is the only line break the code itself
produces; `int(...)` is modelled on optionally signed decimal digit
strings, without Python's underscore grouping).

The two network calls inside `check_proxy` are abstracted by a
`NetBehavior` oracle: for each call it either raises (any
`requests`/JSON/key-access exception inside the `try` block, all of which
the code handles identically through `except Exception`) or returns a
parsed JSON document restricted to the fields the code reads.
-/

/-- Python strings, modelled as lists of characters. -/
abbrev PyStr := List Char

/-- A Lean string literal as a `PyStr`. -/
def str (s : String) : PyStr := s.data

/-- A Python value as it occurs in the result rows: a bool, an int or a
string.  `str()` on a bool gives `"True"`/`"False"`, on an int its decimal
representation. -/
inductive PyVal where
  | pyBool (b : Bool)
  | pyInt (n : Int)
  | pyStr (s : PyStr)
deriving DecidableEq

/-- Python `str(v)`. -/
def PyVal.toPyStr : PyVal → PyStr
  | .pyBool true => str "True"
  | .pyBool false => str "False"
  | .pyInt n => str (toString n)
  | .pyStr s => s

/-- Python `s.split(c)` for a one-character separator: always at least one
field, adjacent separators give empty fields. -/
def splitOnChar (c : Char) : PyStr → List PyStr
  | [] => [[]]
  | x :: xs =>
    if x = c then [] :: splitOnChar c xs
    else
      match splitOnChar c xs with
      | [] => [[x]]
      | y :: ys => (x :: y) :: ys

/-- Python `s.split(c, 1)` fused with the `c in s` test: `some (before,
after)` at the first occurrence of `c`, `none` when `c` does not occur. -/
def splitFirstAt (c : Char) : PyStr → Option (PyStr × PyStr)
  | [] => none
  | x :: xs =>
    if x = c then some ([], xs)
    else (splitFirstAt c xs).map fun p => (x :: p.1, p.2)

/-- Python `s.splitlines()` for `"\n"` line breaks: no trailing empty
line, and `""` gives no lines at all. -/
def pySplitlines : PyStr → List PyStr
  | [] => []
  | c :: rest =>
    if c = '\n' then [] :: pySplitlines rest
    else
      match pySplitlines rest with
      | [] => [[c]]
      | l :: ls => (c :: l) :: ls

/-- A character Python `str.strip()` removes (the ASCII whitespace that can
occur in this code base's strings). -/
def isPySpace (c : Char) : Bool :=
  c = ' ' || c = '\t' || c = '\n' || c = '\r' || c = '\x0b' || c = '\x0c'

/-- Python `s.strip()`. -/
def pyStrip (s : PyStr) : PyStr :=
  ((s.dropWhile isPySpace).reverse.dropWhile isPySpace).reverse

/-- The scan of Python `s.replace(pat, rep)` for a non-empty pattern:
left to right, non-overlapping, each step either consuming a whole match
(at least one character, so `s.length` bounds the number of steps and
serves as fuel) or keeping one character. -/
def pyReplaceFuel (pat rep : PyStr) : Nat → PyStr → PyStr
  | _, [] => []
  | 0, s => s
  | fuel + 1, x :: xs =>
    if pat ≠ [] ∧ pat.isPrefixOf (x :: xs) then
      rep ++ pyReplaceFuel pat rep fuel ((x :: xs).drop pat.length)
    else
      x :: pyReplaceFuel pat rep fuel xs

/-- Python `s.replace(pat, rep)` (all occurrences; the empty pattern
inserts `rep` around every character, as Python does). -/
def pyReplace (s pat rep : PyStr) : PyStr :=
  if pat = [] then rep ++ s.foldr (fun c acc => c :: (rep ++ acc)) []
  else pyReplaceFuel pat rep s.length s

/-- The value of a non-empty all-digit string. -/
def digitsVal (s : PyStr) : Option Nat :=
  if s = [] then none
  else if s.all (·.isDigit) then
    some (s.foldl (fun acc c => acc * 10 + (c.toNat - 48)) 0)
  else none

/-- Python `int(s)` on a string, as `some` value or `none` for a
`ValueError`: surrounding whitespace is stripped, an optional single sign
precedes a non-empty run of decimal digits.  (Python's underscore digit
grouping is not modelled; no caller of this code produces it.) -/
def pyIntParse (s : PyStr) : Option Int :=
  match pyStrip s with
  | '-' :: rest => (digitsVal rest).map fun n => -(n : Int)
  | '+' :: rest => (digitsVal rest).map fun n => (n : Int)
  | t => (digitsVal t).map fun n => (n : Int)

/-! ## The data model of `proxy_checker.py` -/

/-- One success row, `row` of `check_proxy` (`proxy_checker.py` lines
66-79).  The Python row is a 12-element list; the structure's fields are
its entries in order, with the fraud score (`row[4]`) carried as the
integer the code compares and the free-text credential details (`row[-1]`)
as a string. -/
structure Row where
  proxyIp : PyVal
  publicIp : PyVal
  location : PyVal
  isp : PyVal
  fraudScore : Int
  proxy : PyVal
  vpn : PyVal
  tor : PyVal
  mobile : PyVal
  recentAbuse : PyVal
  botStatus : PyVal
  details : PyStr
deriving DecidableEq

/-- The Python row as the list the GUI columns index
(`row[0]`..`row[10]`; `row[-1]` is `Row.details`). -/
def Row.asList (r : Row) : List PyVal :=
  [r.proxyIp, r.publicIp, r.location, r.isp, .pyInt r.fraudScore,
   r.proxy, r.vpn, r.tor, r.mobile, r.recentAbuse, r.botStatus]

/-- The module-level aggregate of `proxy_checker.py` lines 13-15:
`results`, `summary["total"]`, `summary["high_risk"]`, `failed_proxies`. -/
structure Aggregate where
  results : List Row
  total : Nat
  highRisk : Nat
  failed : List PyStr
deriving DecidableEq

/-- The globals' initial values (`results = []`, `summary = {"total": 0,
"high_risk": 0}`, `failed_proxies = []`). -/
def initialAggregate : Aggregate := ⟨[], 0, 0, []⟩

/-- The JSON document of the geolocation response, restricted to the
fields `check_proxy` reads; a missing field is `none` (`geo_data.get`
returns `None`, subscripting raises `KeyError`). -/
structure GeoJson where
  status : Option PyVal
  query : Option PyVal
  city : Option PyVal
  regionName : Option PyVal

/-- The JSON document of the fraud-score response, restricted to the
fields `check_proxy` reads.  `success` is the truthiness of
`fraud_data.get('success')` (`false` also when the field is missing);
`fraudScore` is `none` when `fraud_score` is absent (the code defaults it
to `0`).  A response whose `fraud_score` is not an integer would raise
inside the `try` block and is observably identical to a failed call. -/
structure FraudJson where
  success : Bool
  fraudScore : Option Int
  isp : Option PyVal
  proxy : Option PyVal
  vpn : Option PyVal
  tor : Option PyVal
  mobile : Option PyVal
  recentAbuse : Option PyVal
  botStatus : Option PyVal

/-- The behaviour of the two network calls of one probe.  `none` stands
for any exception raised by `requests.get` or `.json()` (connect failure,
timeout, TLS failure, malformed JSON, ...): inside `check_proxy`'s `try`
block all of them reach the same `except Exception` handler. -/
structure NetBehavior where
  geo : Option GeoJson
  fraud : Option FraudJson

/-- The sentinel for an attribute the fraud service did not report. -/
def naVal : PyVal := .pyStr (str "N/A")

/-- The free-text details entry of a success row
(`f"Username: {user}\nPassword: {password}\nPort: {port}"`,
`proxy_checker.py` line 78). -/
def mkDetails (user password port : PyStr) : PyStr :=
  str "Username: " ++ user ++ str "\nPassword: " ++ password ++ str "\nPort: " ++ port

/-- `check_proxy(proxy, api_key)` of `proxy_checker.py` lines 18-85, as a
state transformer on the module-level aggregate.  The branches mirror the
source: a `ValueError` from unpacking the colon-split (any field count
other than four) records `"Malformed: " + proxy`; inside the `try` block a
raising geolocation call, a geolocation status other than `"success"`, a
missing `query`/`city`/`regionName` key (a `KeyError`, caught by `except
Exception`), a raising fraud call and a falsy fraud `success` flag each
record the bare proxy string; otherwise one row is appended, `total` is
incremented, and `high_risk` is incremented when the fraud score (default
0) is at least 75.  The `api_key` only parameterizes the fraud request
URL, which the `NetBehavior` oracle abstracts. -/
def checkProxy (proxy apiKey : PyStr) (net : NetBehavior) (st : Aggregate) : Aggregate :=
  match splitOnChar ':' proxy with
  | [ip, port, user, password] =>
    match net.geo with
    | none => { st with failed := st.failed ++ [proxy] }
    | some geo =>
      if geo.status ≠ some (PyVal.pyStr (str "success")) then
        { st with failed := st.failed ++ [proxy] }
      else
        match geo.query, geo.city, geo.regionName with
        | some q, some c, some rn =>
          match net.fraud with
          | none => { st with failed := st.failed ++ [proxy] }
          | some fr =>
            if fr.success then
              let fraudScore := fr.fraudScore.getD 0
              let st1 :=
                if fraudScore ≥ 75 then { st with highRisk := st.highRisk + 1 } else st
              let row : Row :=
                { proxyIp := .pyStr ip
                  publicIp := q
                  location := .pyStr (c.toPyStr ++ str ", " ++ rn.toPyStr)
                  isp := fr.isp.getD naVal
                  fraudScore := fraudScore
                  proxy := fr.proxy.getD naVal
                  vpn := fr.vpn.getD naVal
                  tor := fr.tor.getD naVal
                  mobile := fr.mobile.getD naVal
                  recentAbuse := fr.recentAbuse.getD naVal
                  botStatus := fr.botStatus.getD naVal
                  details := mkDetails user password port }
              { st1 with results := st1.results ++ [row], total := st1.total + 1 }
            else { st with failed := st.failed ++ [proxy] }
        | _, _, _ => { st with failed := st.failed ++ [proxy] }
  | _ => { st with failed := st.failed ++ [str "Malformed: " ++ proxy] }

/-- The probes of one batch in submission order.  `env i` is the network
behaviour seen by the probe of the `i`-th submitted proxy. -/
def runProxies (apiKey : PyStr) (env : Nat → NetBehavior) :
    List PyStr → Nat → Aggregate → Aggregate
  | [], _, st => st
  | p :: ps, i, st => runProxies apiKey env ps (i + 1) (checkProxy p apiKey (env i) st)

/-- `check_proxies_with_threading(proxies, api_key, threads)` of
`proxy_checker.py` lines 88-101: every proxy is submitted once and the
function returns only after every `future.result()` call.  The pool's
completion order only permutes the order in which outcomes reach the
shared lists; the properties proved below (counts and counter/row
invariants) are invariant under that order, so the model executes the
probes in submission order. -/
def checkProxiesWithThreading (proxies : List PyStr) (apiKey : PyStr)
    (env : Nat → NetBehavior) (st : Aggregate) : Aggregate :=
  runProxies apiKey env proxies 0 st

/-- Master case analysis of `checkProxy`: every call either records the
malformed-input entry (exactly when the colon-split does not have four
fields), records the bare proxy string as failed, or appends exactly one
success row while bumping the counters. -/
theorem checkProxy_cases (p k : PyStr) (net : NetBehavior) (st : Aggregate) :
    (checkProxy p k net st = { st with failed := st.failed ++ [str "Malformed: " ++ p] }
        ∧ (splitOnChar ':' p).length ≠ 4)
    ∨ (checkProxy p k net st = { st with failed := st.failed ++ [p] }
        ∧ (splitOnChar ':' p).length = 4)
    ∨ (∃ row : Row, checkProxy p k net st =
          { st with results := st.results ++ [row], total := st.total + 1,
                    highRisk := st.highRisk + (if row.fraudScore ≥ 75 then 1 else 0) }
        ∧ (splitOnChar ':' p).length = 4) := by
  rcases hs : splitOnChar ':' p with _ | ⟨a, _ | ⟨b, _ | ⟨c, _ | ⟨d, _ | ⟨e, tl⟩⟩⟩⟩⟩
  · exact Or.inl ⟨by simp [checkProxy, hs], by simp [hs]⟩
  · exact Or.inl ⟨by simp [checkProxy, hs], by simp [hs]⟩
  · exact Or.inl ⟨by simp [checkProxy, hs], by simp [hs]⟩
  · exact Or.inl ⟨by simp [checkProxy, hs], by simp [hs]⟩
  case cons.cons.cons.cons.nil =>
    rcases net with ⟨geo, fraud⟩
    rcases geo with _ | geo
    · exact Or.inr (Or.inl ⟨by simp [checkProxy, hs], by simp [hs]⟩)
    by_cases hstat : geo.status = some (PyVal.pyStr (str "success"))
    case neg =>
      exact Or.inr (Or.inl ⟨by simp [checkProxy, hs, hstat], by simp [hs]⟩)
    rcases hq : geo.query with _ | q
    · exact Or.inr (Or.inl ⟨by simp [checkProxy, hs, hstat, hq], by simp [hs]⟩)
    rcases hc : geo.city with _ | cty
    · exact Or.inr (Or.inl ⟨by simp [checkProxy, hs, hstat, hq, hc], by simp [hs]⟩)
    rcases hr : geo.regionName with _ | rn
    · exact Or.inr (Or.inl ⟨by simp [checkProxy, hs, hstat, hq, hc, hr], by simp [hs]⟩)
    rcases fraud with _ | fr
    · exact Or.inr (Or.inl ⟨by simp [checkProxy, hs, hstat, hq, hc, hr], by simp [hs]⟩)
    by_cases hsucc : fr.success
    case neg =>
      exact Or.inr (Or.inl ⟨by simp [checkProxy, hs, hstat, hq, hc, hr, hsucc], by simp [hs]⟩)
    refine Or.inr (Or.inr ⟨?_, ?_, by simp [hs]⟩)
    · exact
        { proxyIp := .pyStr a
          publicIp := q
          location := .pyStr (cty.toPyStr ++ str ", " ++ rn.toPyStr)
          isp := fr.isp.getD naVal
          fraudScore := fr.fraudScore.getD 0
          proxy := fr.proxy.getD naVal
          vpn := fr.vpn.getD naVal
          tor := fr.tor.getD naVal
          mobile := fr.mobile.getD naVal
          recentAbuse := fr.recentAbuse.getD naVal
          botStatus := fr.botStatus.getD naVal
          details := mkDetails c d b }
    · by_cases hhi : fr.fraudScore.getD 0 ≥ 75 <;>
        simp [checkProxy, hs, hstat, hq, hc, hr, hsucc, hhi]
  · exact Or.inl ⟨by simp [checkProxy, hs], by simp [hs]⟩

/-- Every single probe adds exactly one entry across the two outcome
lists. -/
theorem checkProxy_count (p k : PyStr) (net : NetBehavior) (st : Aggregate) :
    (checkProxy p k net st).results.length + (checkProxy p k net st).failed.length
      = st.results.length + st.failed.length + 1 := by
  rcases checkProxy_cases p k net st with ⟨h, -⟩ | ⟨h, -⟩ | ⟨row, h, -⟩ <;>
    simp [h] <;> omega

/-- Counting over a batch, with the starting aggregate and submission
index arbitrary. -/
theorem runProxies_count (k : PyStr) (env : Nat → NetBehavior) :
    ∀ (ps : List PyStr) (i : Nat) (st : Aggregate),
      (runProxies k env ps i st).results.length + (runProxies k env ps i st).failed.length
        = st.results.length + st.failed.length + ps.length := by
  intro ps
  induction ps with
  | nil => intro i st; simp [runProxies]
  | cons p ps ih =>
    intro i st
    have h := checkProxy_count p k (env i) st
    simp only [runProxies, ih, List.length_cons]
    omega

/-- **C1.**  Over a batch run, every input line yields exactly one
outcome: the sums of success rows and failure entries grow by exactly the
number of input lines, and a batch started on the empty module-level
aggregate ends with `len(results) + len(failed_proxies) =
len(proxies)`. -/
theorem claim_C1_one_outcome_per_line (proxies : List PyStr) (apiKey : PyStr)
    (env : Nat → NetBehavior) (st : Aggregate) :
    ((checkProxiesWithThreading proxies apiKey env st).results.length
        + (checkProxiesWithThreading proxies apiKey env st).failed.length
        = st.results.length + st.failed.length + proxies.length)
    ∧ ((checkProxiesWithThreading proxies apiKey env initialAggregate).results.length
        + (checkProxiesWithThreading proxies apiKey env initialAggregate).failed.length
        = proxies.length) := by
  constructor
  · exact runProxies_count apiKey env proxies 0 st
  · have h := runProxies_count apiKey env proxies 0 initialAggregate
    simpa [initialAggregate] using h

/-- **C3.**  A probe never escapes `check_proxy`: for every credential
string and every behaviour of the two network calls (exceptions included)
the call is total and records exactly one outcome — either one success row
with the failure list untouched, or one failure entry (the bare input, or
`"Malformed: "` plus the input) with the success rows untouched. -/
theorem claim_C3_probe_failures_contained (p k : PyStr) (net : NetBehavior) (st : Aggregate) :
    ((checkProxy p k net st).failed = st.failed
        ∧ ∃ row, (checkProxy p k net st).results = st.results ++ [row])
    ∨ ((checkProxy p k net st).results = st.results
        ∧ ∃ e, (checkProxy p k net st).failed = st.failed ++ [e]
          ∧ (e = p ∨ e = str "Malformed: " ++ p)) := by
  rcases checkProxy_cases p k net st with ⟨h, -⟩ | ⟨h, -⟩ | ⟨row, h, -⟩
  · exact Or.inr ⟨by simp [h], str "Malformed: " ++ p, by simp [h], Or.inr rfl⟩
  · exact Or.inr ⟨by simp [h], p, by simp [h], Or.inl rfl⟩
  · exact Or.inl ⟨by simp [h], row, by simp [h]⟩

/-- The counter/row invariant of the aggregate. -/
def countersOk (st : Aggregate) : Prop :=
  st.total = st.results.length
    ∧ st.highRisk = st.results.countP (fun r => decide (r.fraudScore ≥ 75))

/-- One probe preserves the counter/row invariant. -/
theorem checkProxy_countersOk (p k : PyStr) (net : NetBehavior) (st : Aggregate)
    (h : countersOk st) : countersOk (checkProxy p k net st) := by
  obtain ⟨h1, h2⟩ := h
  rcases checkProxy_cases p k net st with ⟨he, -⟩ | ⟨he, -⟩ | ⟨row, he, -⟩
  · exact ⟨by simp [he, h1], by simp [he, h2]⟩
  · exact ⟨by simp [he, h1], by simp [he, h2]⟩
  · refine ⟨by simp [he, h1], ?_⟩
    simp only [he, List.countP_append, h2, List.countP_cons, List.countP_nil]
    by_cases hge : row.fraudScore ≥ 75 <;> simp [hge]

/-- A batch preserves the counter/row invariant. -/
theorem runProxies_countersOk (k : PyStr) (env : Nat → NetBehavior) :
    ∀ (ps : List PyStr) (i : Nat) (st : Aggregate),
      countersOk st → countersOk (runProxies k env ps i st) := by
  intro ps
  induction ps with
  | nil => intro i st h; simpa [runProxies] using h
  | cons p ps ih =>
    intro i st h
    exact ih (i + 1) _ (checkProxy_countersOk p k (env i) st h)

/-- **C4.**  After a batch run from the empty aggregate, `summary["total"]`
equals the number of success rows and `summary["high_risk"]` equals the
number of success rows whose fraud score is at least 75. -/
theorem claim_C4_summary_matches_rows (proxies : List PyStr) (apiKey : PyStr)
    (env : Nat → NetBehavior) :
    (checkProxiesWithThreading proxies apiKey env initialAggregate).total
        = (checkProxiesWithThreading proxies apiKey env initialAggregate).results.length
    ∧ (checkProxiesWithThreading proxies apiKey env initialAggregate).highRisk
        = (checkProxiesWithThreading proxies apiKey env initialAggregate).results.countP
            (fun r => decide (r.fraudScore ≥ 75)) :=
  runProxies_countersOk apiKey env proxies 0 initialAggregate
    ⟨rfl, by simp [initialAggregate]⟩

/-- A network behaviour in which both calls fully succeed, for concrete
instantiations: geolocation status `"success"` with a public IP and
location, fraud response successful with score 10 and all attributes
reported `False`. -/
def goodNet : NetBehavior :=
  ⟨some ⟨some (.pyStr (str "success")), some (.pyStr (str "9.9.9.9")),
     some (.pyStr (str "City")), some (.pyStr (str "Region"))⟩,
   some ⟨true, some 10, some (.pyStr (str "SomeISP")), some (.pyBool false),
     some (.pyBool false), some (.pyBool false), some (.pyBool false),
     some (.pyBool false), some (.pyBool false)⟩⟩

/-- **C5, counterexample.**  Two distinct failure modes of the same input
— the geolocation call raising (`GeolocationUnreachable`) and the
geolocation response parsing but carrying status `"fail"`
(`GeolocationRejected`) — leave identical aggregates, whose single failure
entry is the bare input string with no reason attached: the five failure
kinds are not distinguishable in the recorded failure list. -/
theorem claim_C5_reasons_not_recorded :
    checkProxy (str "a:b:c:d") (str "k") ⟨none, none⟩ initialAggregate
      = checkProxy (str "a:b:c:d") (str "k")
          ⟨some ⟨some (.pyStr (str "fail")), none, none, none⟩, none⟩ initialAggregate
    ∧ (checkProxy (str "a:b:c:d") (str "k") ⟨none, none⟩ initialAggregate).failed
      = [str "a:b:c:d"] := by
  constructor <;> rfl

/-- **C5, amended.**  Every recorded failure entry carries the original
input line: an unparseable line is recorded as `"Malformed: "` plus the
line, and every probe failure (geolocation unreachable or rejected, fraud
service unreachable or rejected) is recorded as the bare line — so the
malformed kind is distinguishable by its prefix, while the four probe
failure kinds all record the same string. -/
theorem claim_C5_failure_entry_carries_input (p k : PyStr) (net : NetBehavior)
    (st : Aggregate) :
    (checkProxy p k net st).failed = st.failed
    ∨ (checkProxy p k net st).failed = st.failed ++ [str "Malformed: " ++ p]
    ∨ (checkProxy p k net st).failed = st.failed ++ [p] := by
  rcases checkProxy_cases p k net st with ⟨h, -⟩ | ⟨h, -⟩ | ⟨row, h, -⟩
  · exact Or.inr (Or.inl (by simp [h]))
  · exact Or.inr (Or.inr (by simp [h]))
  · exact Or.inl (by simp [h])

/-- **C6.**  Parsing inside `check_proxy` is total and succeeds exactly
when splitting the line on `':'` yields four fields: any other field count
records `"Malformed: "` plus the original line and nothing else, while a
four-field line never records a malformed entry (its failure entry, if
any, is the bare line).  No further validation is performed: the
four-field line `"1.2.3.4:notaport:user:pw"`, whose port field is not
numeric, still probes and yields a success row under a fully successful
network behaviour. -/
theorem claim_C6_parse_iff_four_fields (p k : PyStr) (net : NetBehavior) (st : Aggregate) :
    (((splitOnChar ':' p).length ≠ 4 →
        checkProxy p k net st = { st with failed := st.failed ++ [str "Malformed: " ++ p] })
      ∧ ((splitOnChar ':' p).length = 4 →
          (checkProxy p k net st).failed = st.failed
          ∨ (checkProxy p k net st).failed = st.failed ++ [p]))
    ∧ (splitOnChar ':' (str "1.2.3.4:notaport:user:pw")).length = 4
    ∧ (checkProxy (str "1.2.3.4:notaport:user:pw") (str "key") goodNet
        initialAggregate).results.length = 1
    ∧ (checkProxy (str "1.2.3.4:notaport:user:pw") (str "key") goodNet
        initialAggregate).failed = [] := by
  refine ⟨⟨?_, ?_⟩, by rfl, by rfl, by rfl⟩
  · intro hne
    rcases checkProxy_cases p k net st with ⟨h, -⟩ | ⟨-, h4⟩ | ⟨row, -, h4⟩
    · exact h
    · exact absurd h4 hne
    · exact absurd h4 hne
  · intro h4
    rcases checkProxy_cases p k net st with ⟨-, hne⟩ | ⟨h, -⟩ | ⟨row, h, -⟩
    · exact absurd h4 hne
    · exact Or.inr (by simp [h])
    · exact Or.inl (by simp [h])

/-- **C6, witness.**  The two-field line `"host:port"` is recorded as
malformed. -/
theorem claim_C6_witness :
    checkProxy (str "host:port") (str "k") ⟨none, none⟩ initialAggregate
      = { initialAggregate with
          failed := initialAggregate.failed ++ [str "Malformed: " ++ str "host:port"] } :=
  (claim_C6_parse_iff_four_fields (str "host:port") (str "k") ⟨none, none⟩
    initialAggregate).1.1 (by decide)

/-! ## The filter of `export.py`'s `refresh` (lines 217-258) -/

/-- The max-fraud-score bound `refresh` computes from the spinbox text
(`export.py` lines 226-231): `int(text)` when the text is non-empty and
parses, otherwise 0 (both the empty string and a `ValueError` give 0). -/
def maxFsValue (s : PyStr) : Int :=
  if s ≠ [] then
    match pyIntParse s with
    | some n => n
    | none => 0
  else 0

/-- The six boolean-column comboboxes of the filter bar, in creation
order; each holds `"All"`, `"True"` or `"False"`. -/
structure BoolFilters where
  proxy : PyStr
  vpn : PyStr
  tor : PyStr
  mobile : PyStr
  recentAbuse : PyStr
  botStatus : PyStr
deriving DecidableEq

/-- The `(var, full_row[cols.index(col)])` pairs the filter loop visits:
`bool_cols` is `["Proxy", "VPN", "Tor", "Mobile", "Recent Abuse",
"Bot Status"]` and `cols.index` sends them to row entries 5..10. -/
def boolFilterPairs (bf : BoolFilters) (row : Row) : List (PyStr × PyVal) :=
  [(bf.proxy, row.proxy), (bf.vpn, row.vpn), (bf.tor, row.tor),
   (bf.mobile, row.mobile), (bf.recentAbuse, row.recentAbuse),
   (bf.botStatus, row.botStatus)]

/-- Whether `refresh` keeps `row`: the row is skipped when `full_row[4] >
max_val`, and otherwise when some combobox holds a value other than
`"All"` that differs from `str(full_row[cols.index(col)])` (the loop's
early `break` is `List.all`'s short-circuit). -/
def rowPasses (maxFsText : PyStr) (bf : BoolFilters) (row : Row) : Bool :=
  let maxVal := maxFsValue maxFsText
  if row.fraudScore > maxVal then false
  else
    (boolFilterPairs bf row).all fun pv =>
      decide (pv.1 = str "All") || decide (pv.2.toPyStr = pv.1)

/-- The rows `refresh` inserts into the export tree, in original order. -/
def refreshRows (maxFsText : PyStr) (bf : BoolFilters) (rows : List Row) : List Row :=
  rows.filter (rowPasses maxFsText bf)

/-- The six boolean attribute columns of the spec's `FilterSpec`. -/
inductive BoolCol where
  | proxy | vpn | tor | mobile | recentAbuse | botStatus
deriving DecidableEq

/-- The row's value for a boolean column. -/
def Row.boolColVal (r : Row) : BoolCol → PyVal
  | .proxy => r.proxy
  | .vpn => r.vpn
  | .tor => r.tor
  | .mobile => r.mobile
  | .recentAbuse => r.recentAbuse
  | .botStatus => r.botStatus

/-- The combobox text standing for an optional required value: no
constraint is `"All"`, a required boolean is its Python string. -/
def reqText : Option Bool → PyStr
  | none => str "All"
  | some true => str "True"
  | some false => str "False"

/-- The combobox states realizing a `FilterSpec`'s optional per-column
requirements. -/
def filtersOfReq (req : BoolCol → Option Bool) : BoolFilters :=
  ⟨reqText (req .proxy), reqText (req .vpn), reqText (req .tor),
   reqText (req .mobile), reqText (req .recentAbuse), reqText (req .botStatus)⟩

/-- Contract A of spec §4.4, in the spec's words: a row passes iff its
fraud score is at most the spec's max fraud score and, for every boolean
column with a required value, the row's stringified value for that column
equals the required value exactly. -/
def filterSpecPasses (maxFs : Int) (req : BoolCol → Option Bool) (row : Row) : Prop :=
  row.fraudScore ≤ maxFs
    ∧ ∀ c b, req c = some b → (row.boolColVal c).toPyStr = reqText (some b)

/-- One column of the filter loop agrees with the spec's requirement. -/
theorem one_col_iff (o : Option Bool) (v : PyVal) :
    (decide (reqText o = str "All") || decide (v.toPyStr = reqText o)) = true
      ↔ ∀ b, o = some b → v.toPyStr = reqText (some b) := by
  rcases o with _ | b
  · simp [reqText]
  · rcases b
    · have h : decide (reqText (some false) = str "All") = false := by decide
      simp [h]
    · have h : decide (reqText (some true) = str "All") = false := by decide
      simp [h]

/-- The whole six-column loop agrees with the spec's universally
quantified requirement. -/
theorem boolCols_iff (req : BoolCol → Option Bool) (row : Row) :
    ((boolFilterPairs (filtersOfReq req) row).all fun pv =>
        decide (pv.1 = str "All") || decide (pv.2.toPyStr = pv.1)) = true
      ↔ ∀ c b, req c = some b → (row.boolColVal c).toPyStr = reqText (some b) := by
  simp only [boolFilterPairs, filtersOfReq, List.all_cons, List.all_nil,
    Bool.and_true, Bool.and_eq_true]
  constructor
  · rintro ⟨h1, h2, h3, h4, h5, h6⟩ c b
    cases c
    · exact (one_col_iff _ _).mp h1 b
    · exact (one_col_iff _ _).mp h2 b
    · exact (one_col_iff _ _).mp h3 b
    · exact (one_col_iff _ _).mp h4 b
    · exact (one_col_iff _ _).mp h5 b
    · exact (one_col_iff _ _).mp h6 b
  · intro h
    exact ⟨(one_col_iff _ _).mpr (h .proxy), (one_col_iff _ _).mpr (h .vpn),
      (one_col_iff _ _).mpr (h .tor), (one_col_iff _ _).mpr (h .mobile),
      (one_col_iff _ _).mpr (h .recentAbuse), (one_col_iff _ _).mpr (h .botStatus)⟩

/-- A concrete success row with fraud score 80, used for the filter and
export scenarios (credential `1.2.3.4:8080:user:pw`). -/
def row80 : Row :=
  { proxyIp := .pyStr (str "1.2.3.4")
    publicIp := .pyStr (str "9.9.9.9")
    location := .pyStr (str "City, Region")
    isp := .pyStr (str "SomeISP")
    fraudScore := 80
    proxy := .pyBool true
    vpn := .pyBool false
    tor := .pyBool false
    mobile := .pyBool false
    recentAbuse := .pyBool false
    botStatus := .pyBool false
    details := mkDetails (str "user") (str "pw") (str "8080") }

/-- All six comboboxes at their `"All"` default (no constraint). -/
def allPass : BoolFilters :=
  ⟨str "All", str "All", str "All", str "All", str "All", str "All"⟩

/-- **C7.**  The `refresh` filter keeps a row iff its fraud score is at
most the parsed max-fraud-score bound and every boolean column with a
required value matches by exact string comparison; the `"N/A"` sentinel
never equals `"True"` or `"False"`; and a row with fraud score 80 is
excluded at bound 50 and included at bound 90. -/
theorem claim_C7_filter_matches_spec (s : PyStr) (req : BoolCol → Option Bool)
    (row : Row) (rows : List Row) :
    (rowPasses s (filtersOfReq req) row = true
        ↔ filterSpecPasses (maxFsValue s) req row)
    ∧ (row ∈ refreshRows s (filtersOfReq req) rows
        ↔ row ∈ rows ∧ rowPasses s (filtersOfReq req) row = true)
    ∧ ((PyVal.pyStr (str "N/A")).toPyStr ≠ str "True"
        ∧ (PyVal.pyStr (str "N/A")).toPyStr ≠ str "False")
    ∧ (rowPasses (str "50") allPass row80 = false
        ∧ rowPasses (str "90") allPass row80 = true) := by
  refine ⟨?_, List.mem_filter, by decide, by decide, by decide⟩
  unfold rowPasses filterSpecPasses
  by_cases hgt : row.fraudScore > maxFsValue s
  · simp only [if_pos hgt]
    constructor
    · intro h; exact absurd h (by simp)
    · rintro ⟨hle, -⟩; omega
  · simp only [if_neg hgt]
    rw [boolCols_iff]
    constructor
    · intro h; exact ⟨by omega, h⟩
    · rintro ⟨-, h⟩; exact h

/-- **C10.**  An empty or unparseable max-fraud-score text is treated as
the bound 0 (not the unconstrained default 100): every row with a positive
fraud score is then excluded, whatever the boolean filters. -/
theorem claim_C10_bad_maxfs_means_zero (s : PyStr) (bf : BoolFilters) (row : Row)
    (hbad : s = [] ∨ pyIntParse s = none) (hpos : 0 < row.fraudScore) :
    maxFsValue s = 0 ∧ rowPasses s bf row = false := by
  have hz : maxFsValue s = 0 := by
    rcases hbad with h | h
    · simp [maxFsValue, h]
    · unfold maxFsValue
      by_cases he : s = []
      · simp [he]
      · simp [he, h]
  refine ⟨hz, ?_⟩
  unfold rowPasses
  rw [hz]
  simp only [if_pos (by omega : row.fraudScore > (0 : Int))]

/-- **C10, witness.**  The unparseable text `"abc"` yields bound 0 and
excludes the fraud-score-80 row even with every boolean filter off. -/
theorem claim_C10_witness :
    maxFsValue (str "abc") = 0 ∧ rowPasses (str "abc") allPass row80 = false :=
  claim_C10_bad_maxfs_means_zero (str "abc") allPass row80 (Or.inr (by decide))
    (by decide)

/-! ## The templated text export of `export.py`'s `do_export` (lines 412-444) -/

/-- `column_names` of `export.py` lines 269-270, indexing `row[0]`..`row[10]`. -/
def columnNames : List PyStr :=
  [str "Proxy IP", str "Public IP", str "Location", str "ISP", str "Fraud Score",
   str "Proxy", str "VPN", str "Tor", str "Mobile", str "Recent Abuse", str "Bot Status"]

/-- Python `d[k] = v` on a dict modelled as an association list in
insertion order (keys are unique by construction): an existing key keeps
its position and gets the new value, a new key is appended. -/
def dictAssign : List (PyStr × PyVal) → PyStr → PyVal → List (PyStr × PyVal)
  | [], k, v => [(k, v)]
  | kv :: d, k, v => if kv.1 = k then (k, v) :: d else kv :: dictAssign d k v

/-- Python `d.get(k)`. -/
def dictLookup (d : List (PyStr × PyVal)) (k : PyStr) : Option PyVal :=
  (d.find? fun kv => decide (kv.1 = k)).map Prod.snd

/-- `values_dict` of the text branch of `do_export` (lines 423-434): all
eleven standard columns keyed by name, then one entry per line of the
row's details string that contains a `':'`, split at the first `':'` with
key and value stripped of surrounding whitespace. -/
def valuesDict (r : Row) : List (PyStr × PyVal) :=
  let base := (columnNames.zip r.asList).foldl (fun d kv => dictAssign d kv.1 kv.2) []
  (pySplitlines r.details).foldl
    (fun d line =>
      match splitFirstAt ':' line with
      | none => d
      | some (k, v) => dictAssign d (pyStrip k) (.pyStr (pyStrip v)))
    base

/-- The per-row replacement loop (lines 437-439): for each dict entry in
insertion order, replace every occurrence of `"{" + key + "}"` in the line
by `str(value)`. -/
def renderRow (template : PyStr) (r : Row) : PyStr :=
  (valuesDict r).foldl
    (fun line kv => pyReplace line (str "\x7b" ++ kv.1 ++ str "\x7d") kv.2.toPyStr)
    template

/-- The text file the export loop writes: one `line + "\n"` write per
selected row (lines 418-441). -/
def renderTemplatedTxt (template : PyStr) (rows : List Row) : PyStr :=
  rows.foldl (fun acc r => acc ++ renderRow template r ++ str "\n") []

/-- The template default of lines 414-416: the empty (falsy) template is
replaced by `"{Proxy IP}:{Port}:{Username}:{Password}"`. -/
def defaultTemplate : PyStr :=
  str "\x7bProxy IP\x7d:\x7bPort\x7d:\x7bUsername\x7d:\x7bPassword\x7d"

/-- The template actually used by the export. -/
def chooseTemplate (t : PyStr) : PyStr := if t = [] then defaultTemplate else t

/-- The export loop's accumulator concatenates one newline-terminated
rendering per row. -/
theorem renderTxt_aux (t : PyStr) :
    ∀ (rows : List Row) (acc : PyStr),
      rows.foldl (fun a r => a ++ renderRow t r ++ str "\n") acc
        = acc ++ (rows.map fun r => renderRow t r ++ str "\n").flatten := by
  intro rows
  induction rows with
  | nil => intro acc; simp
  | cons r rs ih =>
    intro acc
    rw [List.foldl_cons, ih]
    simp [List.append_assoc]

/-- **C8.**  Templated rendering emits exactly one newline-terminated line
per selected row (the output is the concatenation of the per-row
renderings, each followed by `"\n"`); the default template is
`"{Proxy IP}:{Port}:{Username}:{Password}"`; rendering
`"{Proxy IP}:{Port}"` for the row with proxy IP `1.2.3.4` and port `8080`
yields exactly `"1.2.3.4:8080"`; and a placeholder naming no column or
credential key is left verbatim. -/
theorem claim_C8_templated_rendering (t : PyStr) (rows : List Row) :
    (renderTemplatedTxt t rows = (rows.map fun r => renderRow t r ++ str "\n").flatten)
    ∧ chooseTemplate [] = str "\x7bProxy IP\x7d:\x7bPort\x7d:\x7bUsername\x7d:\x7bPassword\x7d"
    ∧ renderRow (str "\x7bProxy IP\x7d:\x7bPort\x7d") row80 = str "1.2.3.4:8080"
    ∧ renderRow (str "\x7bUnknown Name\x7d") row80 = str "\x7bUnknown Name\x7d" := by
  refine ⟨?_, by decide, by decide, by decide⟩
  simpa [renderTemplatedTxt] using renderTxt_aux t rows []

/-- A newline-free non-empty string is a single line. -/
theorem pySplitlines_single (s : PyStr) (hne : s ≠ []) (h : '\n' ∉ s) :
    pySplitlines s = [s] := by
  induction s with
  | nil => exact absurd rfl hne
  | cons c s' ih =>
    have hc : c ≠ '\n' := by
      intro he; exact h (by simp [he])
    have h' : '\n' ∉ s' := fun hm => h (List.mem_cons_of_mem c hm)
    by_cases hs' : s' = []
    · subst hs'; simp [pySplitlines, hc]
    · simp [pySplitlines, hc, ih hs' h']

/-- Splitting lines after a newline-free first line. -/
theorem pySplitlines_append (a rest : PyStr) (h : '\n' ∉ a) :
    pySplitlines (a ++ '\n' :: rest) = a :: pySplitlines rest := by
  induction a with
  | nil => simp [pySplitlines]
  | cons c a' ih =>
    have hc : c ≠ '\n' := by
      intro he; exact h (by simp [he])
    have h' : '\n' ∉ a' := fun hm => h (List.mem_cons_of_mem c hm)
    rw [List.cons_append]
    rw [pySplitlines.eq_2 c (a' ++ '\n' :: rest), if_neg hc, ih h']

/-- The three detail lines of a success row, when the credential fields
contain no newline. -/
theorem detailsLines (u p port : PyStr) (hu : '\n' ∉ u) (hp : '\n' ∉ p)
    (hpt : '\n' ∉ port) :
    pySplitlines (mkDetails u p port)
      = [str "Username: " ++ u, str "Password: " ++ p, str "Port: " ++ port] := by
  have b1 : ∀ z : PyStr, str "\nPassword: " ++ z = '\n' :: (str "Password: " ++ z) :=
    fun z => rfl
  have b2 : ∀ z : PyStr, str "\nPort: " ++ z = '\n' :: (str "Port: " ++ z) :=
    fun z => rfl
  have e1 : mkDetails u p port
      = (str "Username: " ++ u)
        ++ '\n' :: ((str "Password: " ++ p) ++ '\n' :: (str "Port: " ++ port)) := by
    unfold mkDetails
    simp only [List.append_assoc, b1, b2, List.cons_append]
  have m1 : '\n' ∉ str "Username: " ++ u := by
    simp only [List.mem_append]
    push_neg
    exact ⟨by decide, hu⟩
  have m2 : '\n' ∉ str "Password: " ++ p := by
    simp only [List.mem_append]
    push_neg
    exact ⟨by decide, hp⟩
  have m3 : '\n' ∉ str "Port: " ++ port := by
    simp only [List.mem_append]
    push_neg
    exact ⟨by decide, hpt⟩
  have ne3 : str "Port: " ++ port ≠ [] := by simp [str]
  rw [e1, pySplitlines_append _ _ m1, pySplitlines_append _ _ m2,
    pySplitlines_single _ ne3 m3]

set_option maxHeartbeats 1600000 in
/-- The name-to-value dict of a success row whose credential fields are
newline-free and strip-invariant: the eleven columns, then the three
re-parsed credential entries. -/
theorem valuesDict_of_details (u p port : PyStr) (r : Row)
    (hd : r.details = mkDetails u p port)
    (hu : '\n' ∉ u) (hpw : '\n' ∉ p) (hpt : '\n' ∉ port)
    (hsu : pyStrip u = u) (hsp : pyStrip p = p) (hspt : pyStrip port = port) :
    valuesDict r = (columnNames.zip r.asList)
      ++ [(str "Username", .pyStr u), (str "Password", .pyStr p),
          (str "Port", .pyStr port)] := by
  unfold valuesDict
  rw [hd, detailsLines u p port hu hpw hpt]
  have s1 : splitFirstAt ':' (str "Username: " ++ u) = some (str "Username", ' ' :: u) := rfl
  have s2 : splitFirstAt ':' (str "Password: " ++ p) = some (str "Password", ' ' :: p) := rfl
  have s3 : splitFirstAt ':' (str "Port: " ++ port) = some (str "Port", ' ' :: port) := rfl
  have t1 : pyStrip (' ' :: u) = u := by
    rw [show pyStrip (' ' :: u) = pyStrip u from rfl, hsu]
  have t2 : pyStrip (' ' :: p) = p := by
    rw [show pyStrip (' ' :: p) = pyStrip p from rfl, hsp]
  have t3 : pyStrip (' ' :: port) = port := by
    rw [show pyStrip (' ' :: port) = pyStrip port from rfl, hspt]
  simp only [List.foldl_cons, List.foldl_nil, s1, s2, s3, t1, t2, t3]
  rfl

/-- **C9.**  The templated export obtains `Port`, `Username` and
`Password` by re-parsing the row's free-text details string (splitting
each line at its first `':'` and stripping surrounding whitespace from key
and value): when the credential values contain no newline and no
surrounding whitespace the mapping returns them exactly; a value with
leading whitespace comes back stripped and a value with an embedded
newline comes back truncated at the newline. -/
theorem claim_C9_export_reparses_details (u p port : PyStr) (r : Row)
    (hd : r.details = mkDetails u p port)
    (hu : '\n' ∉ u) (hpw : '\n' ∉ p) (hpt : '\n' ∉ port)
    (hsu : pyStrip u = u) (hsp : pyStrip p = p) (hspt : pyStrip port = port) :
    (dictLookup (valuesDict r) (str "Username") = some (.pyStr u)
      ∧ dictLookup (valuesDict r) (str "Password") = some (.pyStr p)
      ∧ dictLookup (valuesDict r) (str "Port") = some (.pyStr port))
    ∧ dictLookup
        (valuesDict { row80 with details := mkDetails (str " u") (str "pw") (str "8080") })
        (str "Username") = some (.pyStr (str "u"))
    ∧ dictLookup
        (valuesDict { row80 with details := mkDetails (str "a\nb") (str "pw") (str "8080") })
        (str "Username") = some (.pyStr (str "a")) := by
  have hv := valuesDict_of_details u p port r hd hu hpw hpt hsu hsp hspt
  refine ⟨⟨?_, ?_, ?_⟩, by decide, by decide⟩ <;> rw [hv] <;> rfl

/-- **C9, witness.**  The row for credential `1.2.3.4:8080:user:pw` maps
`Username` to `user`, `Password` to `pw` and `Port` to `8080`. -/
theorem claim_C9_witness :
    (dictLookup (valuesDict row80) (str "Username") = some (.pyStr (str "user"))
      ∧ dictLookup (valuesDict row80) (str "Password") = some (.pyStr (str "pw"))
      ∧ dictLookup (valuesDict row80) (str "Port") = some (.pyStr (str "8080")))
    ∧ dictLookup
        (valuesDict { row80 with details := mkDetails (str " u") (str "pw") (str "8080") })
        (str "Username") = some (.pyStr (str "u"))
    ∧ dictLookup
        (valuesDict { row80 with details := mkDetails (str "a\nb") (str "pw") (str "8080") })
        (str "Username") = some (.pyStr (str "a")) :=
  claim_C9_export_reparses_details (str "user") (str "pw") (str "8080") row80 rfl
    (by decide) (by decide) (by decide) (by decide) (by decide) (by decide)
